import Mathlib

/-!
Verification of homebridge-notify-alerts against its specification.

The development shallowly embeds the two core components of the plugin:

* the notification dispatch of `NotifyWebhookAccessory.sendNotification`
  and the contact-sensor state machine of `setContactState` /
  `getContactState` (src/webhookAccessory.ts), and
* the reconciliation loop of `NotifyWebhookPlatform.discoverDevices`
  (dist/platform.js).

JavaScript idioms are modelled explicitly: a possibly-absent string field
is an `Option String`, JS truthiness of a string is "present and
non-empty", and template-literal interpolation of `undefined` yields the
string "undefined".
-/

namespace NotifyAlerts

/-- JS truthiness for a possibly-absent string field: `undefined` and the
empty string are falsy, every other string is truthy. -/
def truthyOpt : Option String → Bool
  | some s => !s.isEmpty
  | none => false

/-- JS template-literal interpolation of a possibly-absent string:
interpolating `undefined` produces the literal text "undefined". -/
def jsStr : Option String → String
  | some s => s
  | none => "undefined"

/-- Extract a string from an optional field after a truthiness guard
(the guard ensures the `none` branch is unreachable where this is used). -/
def optStr : Option String → String
  | some s => s
  | none => ""

/-- One webhook entry as read from config.json (`WebhookConfig` in
src/platform.ts).  The TypeScript interface declares `name`, `token`,
`text` and `id` as required, but configuration is untyped JSON, so the
code guards every field with a truthiness check; all fields are therefore
modelled as optional here. -/
structure RawWebhook where
  name : Option String
  token : Option String
  text : Option String
  id : Option String
  title : Option String
  groupType : Option String
  iconURL : Option String
deriving Repr, DecidableEq

/-- The validation performed by `discoverDevices` (platform.js lines
159-193): each of `name`, `token`, `text`, `id` must be JS-truthy. -/
def validWebhook (w : RawWebhook) : Bool :=
  truthyOpt w.name && truthyOpt w.token && truthyOpt w.text && truthyOpt w.id

/-! ## Dispatch: request construction (`sendNotification`, first half) -/

/-- One optional field of the payload: the key/value pair is emitted
exactly when the config value is JS-truthy (`if (value) payload.key = value`). -/
def optField (key : String) : Option String → List (String × String)
  | some s => if s.isEmpty then [] else [(key, s)]
  | none => []

/-- The JSON body built by `sendNotification` (webhookAccessory.ts lines
443-492), as an ordered key/value list: `text` always (JSON.stringify
drops an `undefined` value, hence the match on `w.text`), then `title`,
`groupType`, `iconUrl` each added only when the corresponding config
field is JS-truthy.  Note the body key is `iconUrl` while the config
field is `iconURL`. -/
def buildPayload (w : RawWebhook) : List (String × String) :=
  (match w.text with
   | some s => [("text", s)]
   | none => [])
  ++ optField "title" w.title
  ++ optField "groupType" w.groupType
  ++ optField "iconUrl" w.iconURL

/-- Look a key up in an ordered key/value list (first match wins, as in
a JSON object built by successive property assignments). -/
def lookupKey (k : String) : List (String × String) → Option String
  | [] => none
  | (k2, v) :: rest => if k2 == k then some v else lookupKey k rest

/-- The outbound HTTP request assembled by `sendNotification`: method,
URL (endpoint with the id substituted into the path), headers, query
parameters (axios `params`), JSON body, timeout and redirect policy. -/
structure HttpRequest where
  method : String
  url : String
  headers : List (String × String)
  queryParams : List (String × String)
  body : List (String × String)
  timeoutMs : Nat
  maxRedirects : Nat
deriving Repr, DecidableEq

/-- The axios call of `sendNotification` (webhookAccessory.ts lines
429-545): POST to `https://notifypush.pingie.com/notify-json/${id}`,
`Content-Type: application/json` header, the token as the sole query
parameter, the payload as body, 10 s timeout, no redirects. -/
def buildRequest (w : RawWebhook) : HttpRequest :=
  { method := "POST"
    url := "https://notifypush.pingie.com/notify-json/" ++ jsStr w.id
    headers := [("Content-Type", "application/json")]
    queryParams := [("token", jsStr w.token)]
    body := buildPayload w
    timeoutMs := 10000
    maxRedirects := 0 }

/-! ## Dispatch: response handling (`sendNotification`, second half) -/

/-- The response body as seen through axios: a parsed JSON object (of
which only the `error` and `message` fields are ever read), a non-JSON
text body (axios leaves it as a plain string), or no body at all. -/
inductive RespBody
  | json (error? : Option String) (message? : Option String)
  | text (s : String)
  | empty
deriving Repr, DecidableEq

/-- JS truthiness of `response.data`: an object is always truthy, a
string is truthy when non-empty, an absent body is falsy. -/
def dataTruthy : RespBody → Bool
  | .json _ _ => true
  | .text s => !s.isEmpty
  | .empty => false

/-- `response.data.error`: only a parsed JSON object can carry it (on a
plain string or absent body the property access yields `undefined`). -/
def dataError : RespBody → Option String
  | .json e _ => e
  | _ => none

/-- `response.data.message`, in the same way. -/
def dataMessage : RespBody → Option String
  | .json _ m => m
  | _ => none

/-- The error message built for a non-200 response (webhookAccessory.ts
lines 558-570): the status line always, then ` - ${error}` appended when
the body is truthy and has a truthy `error` field, then ` - ${message}`
appended when the body is truthy and has a truthy `message` field. -/
def composeError (status : Nat) (statusText : String) (body : RespBody) : String :=
  let m0 := "API returned status " ++ toString status ++ ": " ++ statusText
  let m1 := if dataTruthy body && truthyOpt (dataError body) then
              m0 ++ " - " ++ optStr (dataError body)
            else m0
  if dataTruthy body && truthyOpt (dataMessage body) then
    m1 ++ " - " ++ optStr (dataMessage body)
  else m1

/-- The axios `validateStatus` option passed by `sendNotification`
(line 543): axios resolves for statuses below 500 and throws its own
error for 5xx. -/
def validateStatus (status : Nat) : Bool := status < 500

/-- How `sendNotification` disposes of a received HTTP response:
`delivered` (returns the data) only on status 200, a thrown `Error` with
the composed message for any other sub-500 status, and an axios-raised
rejection for statuses not accepted by `validateStatus`. -/
inductive SendResult
  | delivered (body : RespBody)
  | rejectedByCode (reason : String)
  | axiosThrow (status : Nat)
deriving Repr, DecidableEq

/-- The response-handling path of `sendNotification` (lines 522-592). -/
def handleResponse (status : Nat) (statusText : String) (body : RespBody) : SendResult :=
  if !validateStatus status then .axiosThrow status
  else if status != 200 then .rejectedByCode (composeError status statusText body)
  else .delivered body

/-- Whether a send result is the success (`Delivered`) outcome. -/
def isDelivered : SendResult → Bool
  | .delivered _ => true
  | _ => false

/-- The debug log line for the token (webhookAccessory.ts line 506):
`token.substring(0, Math.min(5, token.length)) + '...'`. -/
def loggedToken (token : String) : String :=
  token.take (min 5 token.length) ++ "..."

/-- Does `needle` start `hay`? (plain character-list comparison). -/
def startsWithCh : List Char → List Char → Bool
  | [], _ => true
  | _ :: _, [] => false
  | a :: n, b :: h => a == b && startsWithCh n h

/-- Does `needle` occur contiguously inside `hay`? -/
def occursCh (n : List Char) : List Char → Bool
  | [] => startsWithCh n []
  | c :: rest => startsWithCh n (c :: rest) || occursCh n rest

/-- Substring occurrence on strings, via the character lists. -/
def strOccurs (needle hay : String) : Bool :=
  occursCh needle.toList hay.toList

/-- Modelled from the spec: the reason-composition algorithm the
specification describes for a rejected response — error detail obtained
by trying the `error` then the `message` field of a JSON body, falling
back to the raw body text when the body is not JSON, and falling back to
the bare status code when the body is empty.  (The code's actual
composition is `composeError`; this definition follows the spec's words
for comparison.) -/
def composeErrorSpec (status : Nat) (statusText : String) (body : RespBody) : String :=
  let detail : Option String :=
    match body with
    | .json e m => if truthyOpt e then e else if truthyOpt m then m else none
    | .text s => if s.isEmpty then none else some s
    | .empty => none
  match detail with
  | some d => "API returned status " ++ toString status ++ ": " ++ statusText ++ " - " ++ d
  | none => toString status

/-! ## State machine: `setContactState` / `getContactState` as a timed trace -/

/-- HomeKit `ContactSensorState.CONTACT_DETECTED` (closed / idle). -/
def CONTACT_DETECTED : Nat := 0

/-- HomeKit `ContactSensorState.CONTACT_NOT_DETECTED` (open / active). -/
def CONTACT_NOT_DETECTED : Nat := 1

/-- Outcome of one dispatch attempt. -/
inductive DispatchOutcome
  | delivered
  | rejectedByRemote (reason : String)
  | transportError (reason : String)
deriving Repr, DecidableEq

/-- One invocation of the `onSet` handler: the time the handler runs,
the characteristic value it is given, and how long the awaited
`sendNotification` call takes to settle and with what outcome.
Times are in milliseconds. -/
structure Activation where
  time : Nat
  value : Nat
  dispatchDuration : Nat
  outcome : DispatchOutcome
deriving Repr, DecidableEq

/-- Externally observable timed events produced by `setContactState`. -/
inductive TimedEvent
  | triggerLogged (t : Nat)
  | dispatchStarted (t : Nat)
  | dispatchSettled (t : Nat) (o : DispatchOutcome)
  | timerStarted (t : Nat) (delayMs : Nat)
  | resetToIdle (t : Nat)
deriving Repr, DecidableEq

/-- Timed-trace embedding of `setContactState` (webhookAccessory.ts
lines 255-362).  On the open value the handler logs, awaits
`sendNotification` (the try/catch swallows every dispatch failure), and
only after that await settles starts the 1000 ms `setTimeout` whose
callback updates the characteristic back to `CONTACT_DETECTED`.  On any
other value the handler does nothing. -/
def setContactState (a : Activation) : List TimedEvent :=
  if a.value == CONTACT_NOT_DETECTED then
    [ .triggerLogged a.time,
      .dispatchStarted a.time,
      .dispatchSettled (a.time + a.dispatchDuration) a.outcome,
      .timerStarted (a.time + a.dispatchDuration) 1000,
      .resetToIdle (a.time + a.dispatchDuration + 1000) ]
  else []

/-- A sequence of activations of the same accessory: each `onSet`
invocation runs the handler independently; no state or timer is shared
between invocations, so the combined trace is the concatenation. -/
def handleActivations (as : List Activation) : List TimedEvent :=
  (as.map setContactState).flatten

/-- The times of all auto-close (`resetToIdle`) events in a trace. -/
def resetTimes (evs : List TimedEvent) : List Nat :=
  evs.filterMap fun e =>
    match e with
    | .resetToIdle t => some t
    | _ => none

/-- `getContactState` (webhookAccessory.ts lines 215-220): the `onGet`
handler unconditionally returns `CONTACT_DETECTED`. -/
def getContactState : Nat := CONTACT_DETECTED

/-- A HomeKit state query: the `onGet` route is `getContactState`, which
closes over no mutable state, so the answer is independent of the
activation trace and of the query time. -/
def stateQuery (_trace : List TimedEvent) (_t : Nat) : Nat := getContactState

/-! ## Registry: `discoverDevices` reconciliation (dist/platform.js) -/

/-- A cached `PlatformAccessory` as `discoverDevices` sees it: its UUID,
its display name, and the webhook configuration bound to its context
(absent for an accessory restored from cache before any config was
attached). -/
structure Accessory where
  uuid : String
  displayName : String
  context : Option RawWebhook
deriving Repr, DecidableEq

/-- Observable events of one `discoverDevices` pass: log diagnostics for
skipped entries, a restore of an existing accessory (context replaced,
no registration), and a creation plus `registerPlatformAccessories`
call for a new accessory. -/
inductive DiscoverEvent
  | warnNull
  | missingName
  | missingToken (name : String)
  | missingText (name : String)
  | missingId (name : String)
  | restored (uuid : String) (w : RawWebhook)
  | registeredNew (uuid : String) (w : RawWebhook)
deriving Repr, DecidableEq

/-- Replace the context of the first accessory carrying `uuid` (the JS
`find` returns the first match, whose `context.webhook` is mutated). -/
def updateFirst (uuid : String) (w : RawWebhook) : List Accessory → List Accessory
  | [] => []
  | a :: rest =>
    if a.uuid == uuid then { a with context := some w } :: rest
    else a :: updateFirst uuid w rest

/-- One iteration of the `discoverDevices` loop (platform.js lines
122-250) on one entry of `config.webhooks`: skip a null entry with a
warning; validate `name`, `token`, `text`, `id` by JS truthiness in that
order, skipping with the matching diagnostic on the first failure;
otherwise compute the UUID from the name, and either update the first
cached accessory with that UUID (no registration) or create and register
a new accessory.  A newly registered accessory is NOT appended to
`this.accessories`, so the known list is unchanged in that branch. -/
def processEntry (genUUID : String → String) (accs : List Accessory)
    (entry : Option RawWebhook) : List Accessory × List DiscoverEvent :=
  match entry with
  | none => (accs, [.warnNull])
  | some w =>
    if !truthyOpt w.name then (accs, [.missingName])
    else if !truthyOpt w.token then (accs, [.missingToken (optStr w.name)])
    else if !truthyOpt w.text then (accs, [.missingText (optStr w.name)])
    else if !truthyOpt w.id then (accs, [.missingId (optStr w.name)])
    else
      let uuid := genUUID (optStr w.name)
      match accs.find? (fun a => a.uuid == uuid) with
      | some _ => (updateFirst uuid w accs, [.restored uuid w])
      | none => (accs, [.registeredNew uuid w])

/-- The full `discoverDevices` loop over the declared webhook list,
threading the accessory list through the iterations and collecting the
events in order. -/
def discoverDevices (genUUID : String → String) :
    List Accessory → List (Option RawWebhook) → List Accessory × List DiscoverEvent
  | accs, [] => (accs, [])
  | accs, e :: rest =>
    let r1 := processEntry genUUID accs e
    let r2 := discoverDevices genUUID r1.1 rest
    (r2.1, r1.2 ++ r2.2)

/-- Count how many new-accessory registrations for a given identifier a
pass emitted. -/
def countRegistered (uuid : String) (evs : List DiscoverEvent) : Nat :=
  (evs.filter fun e =>
    match e with
    | .registeredNew u _ => u == uuid
    | _ => false).length

/-- The diagnostic event that rejects `w` identifies a missing required
field, and identifies the definition by name whenever the name is
present (truthy). -/
def diagnosesMissing (w : RawWebhook) : DiscoverEvent → Prop
  | .missingName => truthyOpt w.name = false
  | .missingToken n => truthyOpt w.token = false ∧ w.name = some n ∧ n ≠ ""
  | .missingText n => truthyOpt w.text = false ∧ w.name = some n ∧ n ≠ ""
  | .missingId n => truthyOpt w.id = false ∧ w.name = some n ∧ n ≠ ""
  | _ => False

/-! ## Helper lemmas -/

lemma lookupKey_optField_self (k : String) (v : Option String) :
    lookupKey k (optField k v) = if truthyOpt v then v else none := by
  cases v with
  | none => simp [optField, truthyOpt, lookupKey]
  | some s =>
    by_cases hs : s.isEmpty <;> simp [optField, truthyOpt, lookupKey, hs]

lemma lookupKey_optField_ne (k k2 : String) (v : Option String) (h : ¬ k2 = k) :
    lookupKey k (optField k2 v) = none := by
  cases v with
  | none => simp [optField, lookupKey]
  | some s =>
    by_cases hs : s.isEmpty <;> simp [optField, lookupKey, hs, h]

lemma lookupKey_append_none (k : String) (l1 l2 : List (String × String))
    (h : lookupKey k l1 = none) : lookupKey k (l1 ++ l2) = lookupKey k l2 := by
  induction l1 with
  | nil => simp
  | cons p rest ih =>
    obtain ⟨k2, v⟩ := p
    by_cases hk : k2 == k
    · simp [lookupKey, hk] at h
    · simp only [lookupKey, hk, List.cons_append, if_false, Bool.false_eq_true] at h ⊢
      exact ih h

lemma lookupKey_cons_ne (k k2 v : String) (rest : List (String × String))
    (h : (k2 == k) = false) : lookupKey k ((k2, v) :: rest) = lookupKey k rest := by
  simp [lookupKey, h]

lemma lookupKey_append (k : String) (l1 l2 : List (String × String)) :
    lookupKey k (l1 ++ l2) = (lookupKey k l1).or (lookupKey k l2) := by
  induction l1 with
  | nil => simp [lookupKey]
  | cons p rest ih =>
    obtain ⟨k2, v⟩ := p
    by_cases hk : (k2 == k) = true <;>
      simp [lookupKey, hk, ih]

lemma mem_optField (k : String) (v : Option String) (p : String × String)
    (h : p ∈ optField k v) : p.1 = k ∧ p.2 ≠ "" ∧ v = some p.2 := by
  cases v with
  | none => simp [optField] at h
  | some s =>
    by_cases hs : s.isEmpty
    · simp [optField, hs] at h
    · simp [optField, hs] at h
      subst h
      exact ⟨rfl, by simpa [String.isEmpty_iff] using hs, rfl⟩

lemma valid_fields (w : RawWebhook) (h : validWebhook w = true) :
    (∃ n, w.name = some n ∧ n ≠ "") ∧ (∃ tk, w.token = some tk ∧ tk ≠ "") ∧
    (∃ t, w.text = some t ∧ t ≠ "") ∧ (∃ i, w.id = some i ∧ i ≠ "") := by
  simp only [validWebhook, Bool.and_eq_true] at h
  obtain ⟨⟨⟨hn, htok⟩, htxt⟩, hid⟩ := h
  refine ⟨?_, ?_, ?_, ?_⟩
  · cases hc : w.name with
    | none => rw [hc] at hn; simp [truthyOpt] at hn
    | some s =>
      rw [hc] at hn
      exact ⟨s, rfl, fun he => by rw [he] at hn; exact (by decide : ¬ ("".isEmpty = false)) (by simpa [truthyOpt] using hn)⟩
  · cases hc : w.token with
    | none => rw [hc] at htok; simp [truthyOpt] at htok
    | some s =>
      rw [hc] at htok
      exact ⟨s, rfl, fun he => by rw [he] at htok; exact (by decide : ¬ ("".isEmpty = false)) (by simpa [truthyOpt] using htok)⟩
  · cases hc : w.text with
    | none => rw [hc] at htxt; simp [truthyOpt] at htxt
    | some s =>
      rw [hc] at htxt
      exact ⟨s, rfl, fun he => by rw [he] at htxt; exact (by decide : ¬ ("".isEmpty = false)) (by simpa [truthyOpt] using htxt)⟩
  · cases hc : w.id with
    | none => rw [hc] at hid; simp [truthyOpt] at hid
    | some s =>
      rw [hc] at hid
      exact ⟨s, rfl, fun he => by rw [he] at hid; exact (by decide : ¬ ("".isEmpty = false)) (by simpa [truthyOpt] using hid)⟩

/-- C1: For every valid TriggerDefinition, the dispatch request is a
POST to `/notify-json/{targetId}` on the Notify host; its JSON body has
the key `text` always and `title`, `groupType`, `iconUrl` exactly when
the corresponding field is configured (truthy) — body entries are never
empty and only those four keys occur, so the token is never in the body;
the token appears only as the `token` URL query parameter and the only
header is `Content-Type: application/json`. -/
theorem C1_dispatch_request (w : RawWebhook) (h : validWebhook w = true) :
    (buildRequest w).method = "POST" ∧
    (buildRequest w).url = "https://notifypush.pingie.com/notify-json/" ++ optStr w.id ∧
    (buildRequest w).headers = [("Content-Type", "application/json")] ∧
    (buildRequest w).queryParams = [("token", optStr w.token)] ∧
    lookupKey "text" (buildRequest w).body = w.text ∧
    lookupKey "title" (buildRequest w).body = (if truthyOpt w.title then w.title else none) ∧
    lookupKey "groupType" (buildRequest w).body
      = (if truthyOpt w.groupType then w.groupType else none) ∧
    lookupKey "iconUrl" (buildRequest w).body
      = (if truthyOpt w.iconURL then w.iconURL else none) ∧
    (∀ p ∈ (buildRequest w).body,
      p.1 = "text" ∨ p.1 = "title" ∨ p.1 = "groupType" ∨ p.1 = "iconUrl") ∧
    (∀ p ∈ (buildRequest w).body, p.2 ≠ "") := by
  obtain ⟨⟨n, hn, _⟩, ⟨tk, htok, _⟩, ⟨t, ht, htne⟩, ⟨i, hi, _⟩⟩ := valid_fields w h
  have hbody : (buildRequest w).body
      = ("text", t) :: (optField "title" w.title
        ++ (optField "groupType" w.groupType ++ optField "iconUrl" w.iconURL)) := by
    simp [buildRequest, buildPayload, ht]
  refine ⟨rfl, by simp [buildRequest, jsStr, optStr, hi], rfl,
    by simp [buildRequest, jsStr, optStr, htok], ?_, ?_, ?_, ?_, ?_, ?_⟩
  · rw [hbody, ht]; simp [lookupKey]
  · rw [hbody, lookupKey_cons_ne _ _ _ _ (by decide), lookupKey_append,
      lookupKey_append, lookupKey_optField_self,
      lookupKey_optField_ne _ _ _ (by decide),
      lookupKey_optField_ne _ _ _ (by decide), Option.none_or, Option.or_none]
  · rw [hbody, lookupKey_cons_ne _ _ _ _ (by decide), lookupKey_append,
      lookupKey_append, lookupKey_optField_self,
      lookupKey_optField_ne _ _ _ (by decide),
      lookupKey_optField_ne _ _ _ (by decide), Option.none_or, Option.or_none]
  · rw [hbody, lookupKey_cons_ne _ _ _ _ (by decide), lookupKey_append,
      lookupKey_append, lookupKey_optField_self,
      lookupKey_optField_ne _ _ _ (by decide),
      lookupKey_optField_ne _ _ _ (by decide), Option.none_or, Option.none_or]
  · intro p hp
    rw [hbody] at hp
    rcases List.mem_cons.mp hp with hp | hp
    · left; rw [hp]
    · rcases List.mem_append.mp hp with hp | hp
      · right; left; exact (mem_optField _ _ _ hp).1
      · rcases List.mem_append.mp hp with hp | hp
        · right; right; left; exact (mem_optField _ _ _ hp).1
        · right; right; right; exact (mem_optField _ _ _ hp).1
  · intro p hp
    rw [hbody] at hp
    rcases List.mem_cons.mp hp with hp | hp
    · rw [hp]; exact htne
    · rcases List.mem_append.mp hp with hp | hp
      · exact (mem_optField _ _ _ hp).2.1
      · rcases List.mem_append.mp hp with hp | hp
        · exact (mem_optField _ _ _ hp).2.1
        · exact (mem_optField _ _ _ hp).2.1

/-- C3 counterexample: The claim says a success (2xx) status is
always `Delivered`; the code treats status 201 — a 2xx success — as a
rejection, because it compares against 200 exactly. -/
theorem C3_counterexample :
    (200 ≤ 201 ∧ 201 < 300) ∧
    isDelivered (handleResponse 201 "Created" RespBody.empty) = false :=
  ⟨by decide, by decide⟩

/-- C3 amended: A dispatch attempt that receives an HTTP response is
`Delivered` exactly when the status is 200: every other status — other
2xx statuses included — is treated as a failure (a thrown error with the
composed reason for statuses below 500, an axios-raised rejection for
the rest). -/
theorem C3_delivered_iff_status_200 (status : Nat) (statusText : String) (body : RespBody) :
    isDelivered (handleResponse status statusText body) = true ↔ status = 200 := by
  unfold handleResponse
  by_cases h5 : status < 500
  · have hv : validateStatus status = true := by simp [validateStatus, h5]
    rw [hv]
    by_cases h2 : status = 200
    · subst h2; simp [isDelivered]
    · have hb : (status != 200) = true := by simp [h2]
      simp [hb, isDelivered, h2]
  · have hv : validateStatus status = false := by
      simp only [validateStatus, decide_eq_false_iff_not]; omega
    rw [hv]
    simp only [Bool.not_false, if_true, isDelivered]
    constructor
    · intro hfalse; exact absurd hfalse (by decide)
    · intro h200; omega

/-- C5: A state query (`getContactState` behind the `onGet` route)
returns the closed/idle value `CONTACT_DETECTED` for every activation
trace and at every instant — before activation, mid-dispatch, mid-timer
or after the window — and never the open/active value. -/
theorem C5_state_query_always_idle (a : Activation) (t : Nat) :
    stateQuery (setContactState a) t = CONTACT_DETECTED ∧
    stateQuery (setContactState a) t ≠ CONTACT_NOT_DETECTED :=
  ⟨rfl, by simp [stateQuery, getContactState, CONTACT_DETECTED, CONTACT_NOT_DETECTED]⟩

/-- C8 counterexample: The claim says the token is never logged in
full, for all token lengths including five characters or fewer; for the
one-character token "T" the debug log line is "T..." and thus contains
the complete token. -/
theorem C8_counterexample :
    loggedToken "T" = "T..." ∧ strOccurs "T" (loggedToken "T") = true :=
  ⟨by decide, by decide⟩

/-- C8 amended: The debug logging emits exactly the first
`min 5 length` characters of the token followed by "...": the log output
depends only on the token's first five characters (so nothing beyond the
fifth character is ever revealed), but a token of five or fewer
characters appears in it in full. -/
theorem C8_token_log_first_five_only (t1 t2 : String) (h : t1.take 5 = t2.take 5) :
    loggedToken t1 = loggedToken t2 ∧ loggedToken t1 = t1.take 5 ++ "..." := by
  have key : ∀ s : String, s.take (min 5 s.length) = s.take 5 := by
    intro s
    apply String.ext
    show (s.take (min 5 s.length)).data = (s.take 5).data
    rw [String.data_take, String.data_take, List.take_eq_take]
    have : s.length = s.data.length := rfl
    omega
  constructor
  · show t1.take (min 5 t1.length) ++ "..." = t2.take (min 5 t2.length) ++ "..."
    rw [key, key, h]
  · show t1.take (min 5 t1.length) ++ "..." = t1.take 5 ++ "..."
    rw [key]

/-- C8 witness: Two tokens sharing their first five characters
produce identical log lines, namely the shared prefix plus "...". -/
theorem C8_token_log_first_five_only_witness :
    "ABCDEFG".take 5 = "ABCDEXY".take 5 ∧
    loggedToken "ABCDEFG" = loggedToken "ABCDEXY" ∧
    loggedToken "ABCDEFG" = "ABCDEFG".take 5 ++ "..." := by
  have h := C8_token_log_first_five_only "ABCDEFG" "ABCDEXY" (by decide)
  exact ⟨by decide, h.1, h.2⟩

/-- C2 counterexample: The claim says the reset lands roughly
1000 ms after the activation itself regardless of dispatch outcome; but
the code starts the 1000 ms timer only after the awaited dispatch
settles, so an activation at time 0 whose dispatch ends in a transport
error after the 10 s timeout is reset at 11000 ms — far outside any
"roughly 1000 ms after activation" window. -/
theorem C2_counterexample :
    resetTimes (setContactState
      { time := 0, value := 1, dispatchDuration := 10000,
        outcome := .transportError "timeout of 10000ms exceeded" }) = [11000] ∧
    1000 + 500 < 11000 :=
  ⟨rfl, by decide⟩

/-- C2 amended: On an "on"/"opened" activation the dispatch begins
at the activation instant (without blocking the host), and regardless of
the dispatch outcome a fixed 1000 ms timer is started when the dispatch
settles: the single reset lands at activation time + dispatch duration
+ 1000 ms (hence roughly 1000 ms after the activation exactly when the
dispatch settles promptly).  Two activations of the same entity each
get their own independent dispatch and their own reset at their own
activation time + own dispatch duration + 1000 ms, never a shared
reset. -/
theorem C2_reset_after_dispatch_settles (a : Activation)
    (h : a.value = CONTACT_NOT_DETECTED) :
    TimedEvent.dispatchStarted a.time ∈ setContactState a ∧
    TimedEvent.timerStarted (a.time + a.dispatchDuration) 1000 ∈ setContactState a ∧
    resetTimes (setContactState a) = [a.time + a.dispatchDuration + 1000] ∧
    (∀ b : Activation, b.value = CONTACT_NOT_DETECTED →
      resetTimes (handleActivations [a, b])
        = [a.time + a.dispatchDuration + 1000, b.time + b.dispatchDuration + 1000]) := by
  have hv : (a.value == CONTACT_NOT_DETECTED) = true := by simp [h]
  refine ⟨?_, ?_, ?_, ?_⟩
  · simp [setContactState, hv]
  · simp [setContactState, hv]
  · simp [setContactState, hv, resetTimes]
  · intro b hb
    have hvb : (b.value == CONTACT_NOT_DETECTED) = true := by simp [hb]
    simp [handleActivations, setContactState, hv, hvb, resetTimes]

/-- C2 witness: Two activations 100 ms apart with prompt dispatches
produce two resets, at 1000 ms and 1100 ms, each 1000 ms after its own
activation. -/
theorem C2_reset_after_dispatch_settles_witness :
    ({ time := 0, value := 1, dispatchDuration := 0,
       outcome := .delivered } : Activation).value = CONTACT_NOT_DETECTED ∧
    resetTimes (handleActivations
      [{ time := 0, value := 1, dispatchDuration := 0, outcome := .delivered },
       { time := 100, value := 1, dispatchDuration := 0, outcome := .delivered }])
      = [1000, 1100] := by
  have h := C2_reset_after_dispatch_settles
    { time := 0, value := 1, dispatchDuration := 0, outcome := .delivered } rfl
  have h2 := h.2.2.2
    ({ time := 100, value := 1, dispatchDuration := 0, outcome := .delivered } : Activation) rfl
  exact ⟨rfl, by simpa using h2⟩

/-- C1 witness: The definition with text "Hi", target id
"ABC12345", token "T" and no optional fields produces a POST to
`/notify-json/ABC12345` with query `token=T` and body `{"text":"Hi"}`. -/
theorem C1_dispatch_request_witness :
    validWebhook ⟨some "Test", some "T", some "Hi", some "ABC12345", none, none, none⟩ = true ∧
    (buildRequest ⟨some "Test", some "T", some "Hi", some "ABC12345", none, none, none⟩).method
      = "POST" ∧
    (buildRequest ⟨some "Test", some "T", some "Hi", some "ABC12345", none, none, none⟩).url
      = "https://notifypush.pingie.com/notify-json/ABC12345" ∧
    (buildRequest ⟨some "Test", some "T", some "Hi", some "ABC12345", none, none, none⟩).queryParams
      = [("token", "T")] ∧
    (buildRequest ⟨some "Test", some "T", some "Hi", some "ABC12345", none, none, none⟩).body
      = [("text", "Hi")] := by
  have h := C1_dispatch_request
    ⟨some "Test", some "T", some "Hi", some "ABC12345", none, none, none⟩ (by decide)
  exact ⟨by decide, h.1, h.2.1.trans (by decide), h.2.2.2.1.trans (by decide), by decide⟩

/-- C4 counterexample: The claim says the rejection reason falls
back to the raw response body text when the body is not parseable as
JSON; the code never does that — a 400 response with the non-JSON body
"quota exceeded" yields the reason "API returned status 400: Bad
Request", which does not contain the body text (the spec-described
composition would contain it). -/
theorem C4_counterexample :
    composeError 400 "Bad Request" (RespBody.text "quota exceeded")
      = "API returned status 400: Bad Request" ∧
    strOccurs "quota exceeded"
      (composeError 400 "Bad Request" (RespBody.text "quota exceeded")) = false ∧
    strOccurs "quota exceeded"
      (composeErrorSpec 400 "Bad Request" (RespBody.text "quota exceeded")) = true ∧
    handleResponse 400 "Bad Request" (RespBody.text "quota exceeded")
      = SendResult.rejectedByCode "API returned status 400: Bad Request" :=
  ⟨by decide, by decide, by decide, by decide⟩

/-- C4 amended: Every response with a sub-500 non-200 status is
rejected with a reason that always embeds the status (and status text);
a truthy `error` field of a JSON body is embedded, as is a truthy
`message` field (both are appended when both are present); a body that
is not a JSON object — raw text or empty — contributes nothing to the
reason (there is no raw-body or bare-status fallback).  In particular an
HTTP 401 with body `{"error":"Invalid token"}` yields a reason
containing "401" and "Invalid token". -/
theorem C4_rejection_reason (status : Nat) (statusText : String) (body : RespBody)
    (h5 : validateStatus status = true) (h2 : status ≠ 200) :
    handleResponse status statusText body
      = SendResult.rejectedByCode (composeError status statusText body) ∧
    (∃ rest, composeError status statusText body
      = "API returned status " ++ toString status ++ ": " ++ statusText ++ rest) ∧
    (∀ e, dataError body = some e → e ≠ "" →
      ∃ pre post, composeError status statusText body = pre ++ e ++ post) ∧
    (∀ m, dataMessage body = some m → m ≠ "" →
      ∃ pre post, composeError status statusText body = pre ++ m ++ post) ∧
    (dataError body = none → dataMessage body = none →
      composeError status statusText body
        = "API returned status " ++ toString status ++ ": " ++ statusText) := by
  refine ⟨?_, ?_, ?_, ?_, ?_⟩
  · have hb : (status != 200) = true := by simp [h2]
    simp [handleResponse, h5, hb]
  · cases hT : dataTruthy body with
    | false => exact ⟨"", by simp [composeError, hT]⟩
    | true =>
      cases hE : truthyOpt (dataError body) with
      | false =>
        cases hM : truthyOpt (dataMessage body) with
        | false => exact ⟨"", by simp [composeError, hT, hE, hM]⟩
        | true =>
          exact ⟨" - " ++ optStr (dataMessage body),
            by simp [composeError, hT, hE, hM, String.append_assoc]⟩
      | true =>
        cases hM : truthyOpt (dataMessage body) with
        | false =>
          exact ⟨" - " ++ optStr (dataError body),
            by simp [composeError, hT, hE, hM, String.append_assoc]⟩
        | true =>
          exact ⟨" - " ++ optStr (dataError body) ++ (" - " ++ optStr (dataMessage body)),
            by simp [composeError, hT, hE, hM, String.append_assoc]⟩
  · intro e he hene
    have hie : e.isEmpty = false := by
      cases hie : e.isEmpty with
      | true => exact absurd ((String.isEmpty_iff e).mp hie) hene
      | false => rfl
    have hT : dataTruthy body = true := by
      cases body with
      | json a b => rfl
      | text s => simp [dataError] at he
      | empty => simp [dataError] at he
    have hE2 : truthyOpt (some e) = true := by simp [truthyOpt, hie]
    cases hM : truthyOpt (dataMessage body) with
    | true =>
      exact ⟨"API returned status " ++ toString status ++ ": " ++ statusText ++ " - ",
        " - " ++ optStr (dataMessage body),
        by simp [composeError, hT, hE2, hM, he, optStr, String.append_assoc]⟩
    | false =>
      exact ⟨"API returned status " ++ toString status ++ ": " ++ statusText ++ " - ", "",
        by simp [composeError, hT, hE2, hM, he, optStr, String.append_assoc]⟩
  · intro m hm hmne
    have him : m.isEmpty = false := by
      cases him : m.isEmpty with
      | true => exact absurd ((String.isEmpty_iff m).mp him) hmne
      | false => rfl
    have hT : dataTruthy body = true := by
      cases body with
      | json a b => rfl
      | text s => simp [dataMessage] at hm
      | empty => simp [dataMessage] at hm
    have hM2 : truthyOpt (some m) = true := by simp [truthyOpt, him]
    cases hE : truthyOpt (dataError body) with
    | true =>
      exact ⟨"API returned status " ++ toString status ++ ": " ++ statusText ++ " - "
          ++ optStr (dataError body) ++ " - ", "",
        by simp [composeError, hT, hE, hM2, hm, optStr, String.append_assoc]⟩
    | false =>
      exact ⟨"API returned status " ++ toString status ++ ": " ++ statusText ++ " - ", "",
        by simp [composeError, hT, hE, hM2, hm, optStr, String.append_assoc]⟩
  · intro he hm
    simp [composeError, he, hm, truthyOpt]

/-- C4 witness: An HTTP 401 response with JSON body
`{"error":"Invalid token"}` is rejected with the reason "API returned
status 401: Unauthorized - Invalid token", which contains both "401"
and "Invalid token". -/
theorem C4_rejection_reason_witness :
    validateStatus 401 = true ∧ 401 ≠ 200 ∧
    handleResponse 401 "Unauthorized" (RespBody.json (some "Invalid token") none)
      = SendResult.rejectedByCode "API returned status 401: Unauthorized - Invalid token" ∧
    strOccurs "401" "API returned status 401: Unauthorized - Invalid token" = true ∧
    strOccurs "Invalid token" "API returned status 401: Unauthorized - Invalid token" = true := by
  have h := (C4_rejection_reason 401 "Unauthorized"
    (RespBody.json (some "Invalid token") none) (by decide) (by decide)).1
  refine ⟨by decide, by decide, ?_, by decide, by decide⟩
  rw [h]
  decide

/-! ## Registry lemmas and theorems -/

lemma truthy_some (v : Option String) (h : truthyOpt v = true) :
    ∃ s, v = some s ∧ s ≠ "" := by
  cases hc : v with
  | none => rw [hc] at h; simp [truthyOpt] at h
  | some s =>
    rw [hc] at h
    refine ⟨s, rfl, fun he => ?_⟩
    rw [he] at h
    exact (by decide : ¬ ("".isEmpty = false)) (by simpa [truthyOpt] using h)

lemma discoverDevices_append (genUUID : String → String) (accs : List Accessory)
    (l1 l2 : List (Option RawWebhook)) :
    discoverDevices genUUID accs (l1 ++ l2)
      = ((discoverDevices genUUID (discoverDevices genUUID accs l1).1 l2).1,
         (discoverDevices genUUID accs l1).2
           ++ (discoverDevices genUUID (discoverDevices genUUID accs l1).1 l2).2) := by
  induction l1 generalizing accs with
  | nil => simp [discoverDevices]
  | cons e rest ih => simp [discoverDevices, ih]

lemma processEntry_invalid (genUUID : String → String) (accs : List Accessory)
    (w : RawWebhook) (h : validWebhook w = false) :
    ∃ ev, processEntry genUUID accs (some w) = (accs, [ev]) ∧ diagnosesMissing w ev := by
  by_cases hn : truthyOpt w.name = true
  · obtain ⟨n, hn2, hnne⟩ := truthy_some _ hn
    have hn3 : truthyOpt (some n) = true := by rw [← hn2]; exact hn
    by_cases htok : truthyOpt w.token = true
    · by_cases htxt : truthyOpt w.text = true
      · by_cases hid : truthyOpt w.id = true
        · exfalso
          rw [validWebhook, hn, htok, htxt, hid] at h
          simp at h
        · refine ⟨.missingId n, ?_, ?_⟩
          · simp [processEntry, hn3, htok, htxt, hid, hn2, optStr]
          · exact ⟨by simpa using hid, hn2, hnne⟩
      · refine ⟨.missingText n, ?_, ?_⟩
        · simp [processEntry, hn3, htok, htxt, hn2, optStr]
        · exact ⟨by simpa using htxt, hn2, hnne⟩
    · refine ⟨.missingToken n, ?_, ?_⟩
      · simp [processEntry, hn3, htok, hn2, optStr]
      · exact ⟨by simpa using htok, hn2, hnne⟩
  · exact ⟨.missingName, by simp [processEntry, hn], by simpa using hn⟩

/-- C6: During reconciliation every declared definition with a
missing (non-truthy) required field is rejected before any entity work:
it produces exactly one diagnostic event identifying the missing field
(and the definition by name when the name is present), changes no
accessory state, and its presence in a batch leaves the processing of
every other entry — before and after it — exactly as if it were absent. -/
theorem C6_invalid_definition_skipped (genUUID : String → String) (accs : List Accessory)
    (w : RawWebhook) (pre post : List (Option RawWebhook)) (h : validWebhook w = false) :
    (∃ ev, processEntry genUUID accs (some w) = (accs, [ev]) ∧ diagnosesMissing w ev) ∧
    (discoverDevices genUUID accs (pre ++ some w :: post)).1
      = (discoverDevices genUUID accs (pre ++ post)).1 ∧
    (discoverDevices genUUID accs (pre ++ some w :: post)).2
      = (discoverDevices genUUID accs pre).2
        ++ (processEntry genUUID (discoverDevices genUUID accs pre).1 (some w)).2
        ++ (discoverDevices genUUID (discoverDevices genUUID accs pre).1 post).2 := by
  obtain ⟨ev, hev, _⟩ :=
    processEntry_invalid genUUID (discoverDevices genUUID accs pre).1 w h
  refine ⟨processEntry_invalid genUUID accs w h, ?_, ?_⟩
  · rw [discoverDevices_append, discoverDevices_append]
    simp [discoverDevices, hev]
  · rw [discoverDevices_append]
    simp [discoverDevices, hev]

/-- C6 witness: A definition missing its token (with name "Bad") in
the middle of a batch is diagnosed and skipped, and the surrounding
entries are processed as if it were not there. -/
theorem C6_invalid_definition_skipped_witness :
    validWebhook ⟨some "Bad", none, some "hi", some "ID1", none, none, none⟩ = false ∧
    (∃ ev, processEntry (fun n => n) []
        (some ⟨some "Bad", none, some "hi", some "ID1", none, none, none⟩) = ([], [ev]) ∧
      diagnosesMissing ⟨some "Bad", none, some "hi", some "ID1", none, none, none⟩ ev) := by
  have h := C6_invalid_definition_skipped (fun n => n) []
    ⟨some "Bad", none, some "hi", some "ID1", none, none, none⟩ [] [] (by decide)
  exact ⟨by decide, h.1⟩

lemma updateFirst_mem (uuid : String) (w : RawWebhook) (accs : List Accessory)
    (h : ∃ a ∈ accs, a.uuid = uuid) :
    ∃ a ∈ updateFirst uuid w accs, a.uuid = uuid ∧ a.context = some w := by
  induction accs with
  | nil => simp at h
  | cons b rest ih =>
    by_cases hb : b.uuid = uuid
    · refine ⟨{ b with context := some w }, ?_, hb, rfl⟩
      simp [updateFirst, hb]
    · obtain ⟨a, ha, hau⟩ := h
      rcases List.mem_cons.mp ha with rfl | ha2
      · exact absurd hau hb
      · obtain ⟨a2, ha2m, ha2u, ha2c⟩ := ih ⟨a, ha2, hau⟩
        refine ⟨a2, ?_, ha2u, ha2c⟩
        have hbne : (b.uuid == uuid) = false := by simp [hb]
        simp [updateFirst, hbne]
        right
        exact ha2m

/-- C7: For every valid declared definition: reconciling it against
an empty known set creates and registers exactly one new entity (one
`registeredNew` event, carrying the identifier derived from the name);
reconciling it against a known set containing an accessory with the
matching identifier reuses that accessory — its bound definition is
replaced with the new one and no registration signal is issued. -/
theorem C7_create_once_or_reuse (genUUID : String → String) (w : RawWebhook) (n : String)
    (hvalid : validWebhook w = true) (hname : w.name = some n) :
    discoverDevices genUUID [] [some w]
      = ([], [DiscoverEvent.registeredNew (genUUID n) w]) ∧
    (∀ accs : List Accessory, (∃ a ∈ accs, a.uuid = genUUID n) →
      (processEntry genUUID accs (some w)).2 = [DiscoverEvent.restored (genUUID n) w] ∧
      (processEntry genUUID accs (some w)).1 = updateFirst (genUUID n) w accs ∧
      ∃ a ∈ (processEntry genUUID accs (some w)).1,
        a.uuid = genUUID n ∧ a.context = some w) := by
  simp only [validWebhook, Bool.and_eq_true] at hvalid
  obtain ⟨⟨⟨hn, htok⟩, htxt⟩, hid⟩ := hvalid
  have hopt : optStr w.name = n := by rw [hname]; rfl
  constructor
  · simp [discoverDevices, processEntry, hn, htok, htxt, hid, hopt, List.find?]
  · intro accs hex
    have hfind : (accs.find? (fun a => a.uuid == genUUID n)).isSome := by
      rw [List.find?_isSome]
      obtain ⟨a, ha, hau⟩ := hex
      exact ⟨a, ha, by simp [hau]⟩
    obtain ⟨a, hfa⟩ := Option.isSome_iff_exists.mp hfind
    refine ⟨?_, ?_, ?_⟩
    · simp [processEntry, hn, htok, htxt, hid, hopt, hfa]
    · simp [processEntry, hn, htok, htxt, hid, hopt, hfa]
    · have h1 : (processEntry genUUID accs (some w)).1 = updateFirst (genUUID n) w accs := by
        simp [processEntry, hn, htok, htxt, hid, hopt, hfa]
      rw [h1]
      exact updateFirst_mem _ _ _ hex

/-- C7 witness: A concrete valid definition named "A": against an
empty known set it yields exactly one registration; against a cached
accessory with the matching identifier it is restored with its context
replaced and no registration. -/
theorem C7_create_once_or_reuse_witness :
    validWebhook ⟨some "A", some "tok", some "hi", some "ID1", none, none, none⟩ = true ∧
    discoverDevices (fun s => s ++ "#u") []
        [some ⟨some "A", some "tok", some "hi", some "ID1", none, none, none⟩]
      = ([], [DiscoverEvent.registeredNew "A#u"
          ⟨some "A", some "tok", some "hi", some "ID1", none, none, none⟩]) ∧
    (processEntry (fun s => s ++ "#u") [⟨"A#u", "A", none⟩]
        (some ⟨some "A", some "tok", some "hi", some "ID1", none, none, none⟩)).2
      = [DiscoverEvent.restored "A#u"
          ⟨some "A", some "tok", some "hi", some "ID1", none, none, none⟩] := by
  have h := C7_create_once_or_reuse (fun s => s ++ "#u")
    ⟨some "A", some "tok", some "hi", some "ID1", none, none, none⟩ "A" (by decide) rfl
  have h2 := (h.2 [⟨"A#u", "A", none⟩] ⟨⟨"A#u", "A", none⟩, by simp, by decide⟩).1
  exact ⟨by decide, by simpa using h.1, by simpa using h2⟩

/-- C9 counterexample: The claim says a second entity with the same
identifier is never created or registered even when the declared list
contains two definitions with the same name; but newly registered
accessories are not added to the known list during the pass, so a batch
with two definitions named "A" against an empty known set emits two
`registeredNew` signals with the identical identifier. -/
theorem C9_counterexample :
    countRegistered "A"
      (discoverDevices (fun n => n) []
        [some ⟨some "A", some "tok", some "hi", some "ID1", none, none, none⟩,
         some ⟨some "A", some "tok", some "hi", some "ID2", none, none, none⟩]).2 = 2 := by
  decide

/-- C9 amended: A new entity is created and registered only for an
identifier absent from the pre-pass known set: whenever processing an
entry emits a `registeredNew` signal, no known accessory carries that
identifier, the known set is left unchanged (newly created entities are
not added to it within the pass), and the identifier is exactly the one
derived from the definition's name — so a declared list with two
definitions of the same name produces two registrations with the same
identifier rather than one. -/
theorem C9_register_only_unknown_uuid (genUUID : String → String) (accs : List Accessory)
    (entry : Option RawWebhook) (u : String) (w' : RawWebhook)
    (h : DiscoverEvent.registeredNew u w' ∈ (processEntry genUUID accs entry).2) :
    (∀ a ∈ accs, a.uuid ≠ u) ∧
    (processEntry genUUID accs entry).1 = accs ∧
    (∀ n, w'.name = some n → u = genUUID n) := by
  cases entry with
  | none => simp [processEntry] at h
  | some w =>
    by_cases hn : truthyOpt w.name = true
    · by_cases htok : truthyOpt w.token = true
      · by_cases htxt : truthyOpt w.text = true
        · by_cases hid : truthyOpt w.id = true
          · rcases hfind : accs.find? (fun a => a.uuid == genUUID (optStr w.name)) with _ | a
            · simp only [processEntry, hn, htok, htxt, hid, Bool.not_true,
                Bool.false_eq_true, if_false, hfind] at h
              rcases List.mem_cons.mp h with heq | hmem
              · obtain ⟨hu, hw⟩ := DiscoverEvent.registeredNew.inj heq.symm
                subst hu
                subst hw
                refine ⟨?_, ?_, ?_⟩
                · intro a ha hau
                  have := List.find?_eq_none.mp hfind a ha
                  simp [hau] at this
                · simp [processEntry, hn, htok, htxt, hid, hfind]
                · intro n hn2
                  rw [hn2]
                  rfl
              · simp at hmem
            · simp [processEntry, hn, htok, htxt, hid, hfind] at h
          · simp [processEntry, hn, htok, htxt, hid] at h
        · simp [processEntry, hn, htok, htxt] at h
      · simp [processEntry, hn, htok] at h
    · simp [processEntry, hn] at h

/-- C9 witness: Processing the definition named "A" against an
empty known set registers the identifier derived from "A"; the theorem
confirms the known set was unchanged and contained no such identifier. -/
theorem C9_register_only_unknown_uuid_witness :
    (DiscoverEvent.registeredNew "A"
        ⟨some "A", some "tok", some "hi", some "ID1", none, none, none⟩
      ∈ (processEntry (fun n => n) []
          (some ⟨some "A", some "tok", some "hi", some "ID1", none, none, none⟩)).2) ∧
    (processEntry (fun n => n) []
        (some ⟨some "A", some "tok", some "hi", some "ID1", none, none, none⟩)).1 = [] := by
  have hmem : DiscoverEvent.registeredNew "A"
      ⟨some "A", some "tok", some "hi", some "ID1", none, none, none⟩
      ∈ (processEntry (fun n => n) []
          (some ⟨some "A", some "tok", some "hi", some "ID1", none, none, none⟩)).2 := by
    decide
  have h := C9_register_only_unknown_uuid (fun n => n) []
    (some ⟨some "A", some "tok", some "hi", some "ID1", none, none, none⟩) "A"
    ⟨some "A", some "tok", some "hi", some "ID1", none, none, none⟩ hmem
  exact ⟨hmem, h.2.1⟩

/-- C10: Validation is truthiness-based, not presence-based: a
required field present but equal to the empty string is treated exactly
as an absent field (the entry is skipped with the same diagnostic), and
a null entry in the webhooks list is skipped with a warning while the
rest of the list is processed unchanged. -/
theorem C10_truthiness_validation (genUUID : String → String) (accs : List Accessory)
    (w : RawWebhook) (rest : List (Option RawWebhook)) :
    processEntry genUUID accs (some { w with name := some "" })
      = processEntry genUUID accs (some { w with name := none }) ∧
    processEntry genUUID accs (some { w with token := some "" })
      = processEntry genUUID accs (some { w with token := none }) ∧
    processEntry genUUID accs (some { w with text := some "" })
      = processEntry genUUID accs (some { w with text := none }) ∧
    processEntry genUUID accs (some { w with id := some "" })
      = processEntry genUUID accs (some { w with id := none }) ∧
    processEntry genUUID accs none = (accs, [DiscoverEvent.warnNull]) ∧
    discoverDevices genUUID accs (none :: rest)
      = ((discoverDevices genUUID accs rest).1,
         DiscoverEvent.warnNull :: (discoverDevices genUUID accs rest).2) := by
  have h1 : truthyOpt (some "") = false := by decide
  have h2 : truthyOpt (none : Option String) = false := by decide
  refine ⟨?_, ?_, ?_, ?_, rfl, ?_⟩
  · simp [processEntry, h1, h2]
  · simp [processEntry, h1, h2]
  · simp [processEntry, h1, h2]
  · simp [processEntry, h1, h2]
  · simp [discoverDevices, processEntry]

end NotifyAlerts
